import Mathlib

/-!
Verification of the DiligentCore slice: the OpenGL program linking /
reflection / binding subsystem declared in
`Graphics/GraphicsEngineOpenGL/include/GLProgram.hpp`, and the cube
geometry generator in `Common/src/GeometryPrimitives.cpp`.

The cube-geometry definitions are a direct shallow embedding of the
`CreateCubeGeometry` source.  The `GLProgram` part of the repository is a
declaration-only header (the method bodies are not part of this slice),
so its behaviour is modelled from the specification, as indicated in the
doc comments.
-/

set_option maxRecDepth 4000

namespace DiligentCore

/-! ## Cube geometry (`Common/src/GeometryPrimitives.cpp`) -/

/-- The `GEOMETRY_PRIMITIVE_VERTEX_FLAGS` bit set: position, normal and
texture-coordinate components. -/
structure GeometryVertexFlags where
  position : Bool
  normal   : Bool
  texcoord : Bool
deriving DecidableEq

/-- `VertexFlags == GEOMETRY_PRIMITIVE_VERTEX_FLAG_NONE`: no bit set. -/
def GeometryVertexFlags.isNone (f : GeometryVertexFlags) : Bool :=
  !f.position && !f.normal && !f.texcoord

/-- `GetGeometryPrimitiveVertexSize`: byte size of one vertex;
`sizeof(float3) = 12`, `sizeof(float2) = 8`. -/
def GetGeometryPrimitiveVertexSize (f : GeometryVertexFlags) : Nat :=
  (if f.position then 12 else 0) +
  (if f.normal then 12 else 0) +
  (if f.texcoord then 8 else 0)

/-- Indices written for one cell `(x, y)` of a face grid, from the inner
loop body of `CreateCubeGeometry` (`v00`, `v10`, `v11`, `v00`, `v11`,
`v01`).  `FaceBaseVertex = FaceIndex * NumFaceVertices`. -/
def cubeCellIndices (NumSubdivisions FaceIndex y x : Nat) : List Nat :=
  let FaceBaseVertex := FaceIndex * ((NumSubdivisions + 1) * (NumSubdivisions + 1))
  let v00 := FaceBaseVertex + y * (NumSubdivisions + 1) + x
  let v10 := v00 + 1
  let v01 := v00 + NumSubdivisions + 1
  let v11 := v01 + 1
  [v00, v10, v11, v00, v11, v01]

/-- Indices written for one cube face: the double loop
`for y in [0, NumSubdivisions) / for x in [0, NumSubdivisions)`. -/
def cubeFaceIndices (NumSubdivisions FaceIndex : Nat) : List Nat :=
  (List.range NumSubdivisions).flatMap fun y =>
    (List.range NumSubdivisions).flatMap fun x =>
      cubeCellIndices NumSubdivisions FaceIndex y x

/-- The complete index buffer written by `CreateCubeGeometry`:
`NumFaces = 6` face grids in order. -/
def cubeIndexData (NumSubdivisions : Nat) : List Nat :=
  (List.range 6).flatMap (cubeFaceIndices NumSubdivisions)

/-- The values stored at the four output pointers of
`CreateCubeGeometry`.  The vertex blob is modelled by its byte size (its
contents are floating-point position/normal/UV data); the index blob by
the list of `Uint32` index values written into it. -/
structure CubeGeometryOut where
  vertexBlob  : Option Nat
  indexBlob   : Option (List Nat)
  numVertices : Nat
  numIndices  : Nat
deriving DecidableEq

/-- Which of the four output pointers of `CreateCubeGeometry` are
non-null. -/
structure CubeOutPtrs where
  hasVertices    : Bool
  hasIndices     : Bool
  hasNumVertices : Bool
  hasNumIndices  : Bool
deriving DecidableEq

/-- Shallow embedding of `CreateCubeGeometry`
(`Common/src/GeometryPrimitives.cpp`).  `Size` is the float size
argument, modelled as a rational (only its sign is ever inspected).
`out` holds the prior values at the output pointers; an early return
leaves them unchanged.  The `Uint32` arithmetic of the source cannot
overflow because `NumSubdivisions <= 2048` is enforced before any
computation, so plain naturals are used. -/
def CreateCubeGeometry (Size : ℚ) (NumSubdivisions : Nat)
    (VertexFlags : GeometryVertexFlags) (ptrs : CubeOutPtrs)
    (out : CubeGeometryOut) : CubeGeometryOut :=
  if Size ≤ 0 then out
  else if NumSubdivisions = 0 then out
  else if NumSubdivisions > 2048 then out
  else
    let NumFaceVertices := (NumSubdivisions + 1) * (NumSubdivisions + 1)
    let NumFaceTriangles := NumSubdivisions * NumSubdivisions * 2
    let NumFaceIndices := NumFaceTriangles * 3
    let VertexSize := GetGeometryPrimitiveVertexSize VertexFlags
    let NumFaces := 6
    let VertexDataSize := NumFaceVertices * NumFaces * VertexSize
    { vertexBlob :=
        if ptrs.hasVertices && !VertexFlags.isNone then some VertexDataSize
        else out.vertexBlob
      indexBlob :=
        if ptrs.hasIndices then some (cubeIndexData NumSubdivisions)
        else out.indexBlob
      numVertices :=
        if ptrs.hasNumVertices then NumFaceVertices * NumFaces
        else out.numVertices
      numIndices :=
        if ptrs.hasNumIndices then NumFaceIndices * NumFaces
        else out.numIndices }

example :
    (CreateCubeGeometry 1 1 ⟨true, true, true⟩ ⟨true, true, true, true⟩
      ⟨none, none, 0, 0⟩).numVertices = 24 := by decide

example :
    (CreateCubeGeometry 1 1 ⟨true, true, true⟩ ⟨true, true, true, true⟩
      ⟨none, none, 0, 0⟩).numIndices = 36 := by decide

example :
    (CreateCubeGeometry 1 2 ⟨true, true, true⟩ ⟨true, true, true, true⟩
      ⟨none, none, 0, 0⟩).indexBlob =
      some (cubeIndexData 2) := by decide

example : ∀ i ∈ cubeIndexData 2, i < 54 := by decide

example :
    CreateCubeGeometry (-1) 4 ⟨true, true, true⟩ ⟨true, true, true, true⟩
      ⟨none, none, 7, 9⟩ = ⟨none, none, 7, 9⟩ := by decide

/-! ## GLProgram (`Graphics/GraphicsEngineOpenGL/include/GLProgram.hpp`)

The header declares the class shape: the `LinkStatus` enum with the four
states `Undefined`, `InProgress`, `Succeeded`, `Failed`; the field
`m_LinkStatus = LinkStatus::Undefined`; the cached
`std::shared_ptr<const ShaderResourcesGL> m_pResources`; and the methods
`GetLinkStatus`, `LoadResources`, `ApplyBindings`, `GetResources`,
`GetInfoLog`.  The method bodies are not part of this slice, so their
behaviour is modelled from the specification (sections 4.1 to 4.3). -/

/-- A compiled shader stage object (`ShaderGLImpl`): its pipeline stage
kind and its native sub-object handle, both modelled as naturals. -/
structure ShaderGLImpl where
  stageKind    : Nat
  shaderHandle : Nat
deriving DecidableEq

/-- `GLProgram::LinkStatus` (GLProgram.hpp lines 53-59). -/
inductive LinkStatus where
  | Undefined
  | InProgress
  | Succeeded
  | Failed
deriving DecidableEq

/-- Kind of a reflected native resource.  The separate texture / sampler
kinds versus the combined kind record how the driver reflected a
texture-sampler pair, which the binding resolver must match against the
signature's declared policy. -/
inductive GLResourceKind where
  | UniformBlock
  | CombinedSampler
  | SeparateTexture
  | SeparateSampler
  | StorageImage
deriving DecidableEq

/-- One entry of the reflected resource table: name, kind, native slot
index, array size and stage visibility mask (spec section 3,
"ResourceDescription table"). -/
structure GLReflectedResource where
  name      : String
  kind      : GLResourceKind
  slot      : Nat
  arraySize : Nat
  stageMask : Nat
deriving DecidableEq

/-- The reflected resource table (`ShaderResourcesGL`): a list of named
entries. -/
abbrev ShaderResourcesGL := List GLReflectedResource

/-- `GLProgram::LoadResourcesAttribs` (GLProgram.hpp lines 62-69):
stage mask, sampler-resource policy flag, uniform-buffer reflection
toggle and source language.  The `GLContextState&` member is the handle
through which native calls are issued; the native side is modelled by
`GLDriver` below. -/
structure LoadResourcesAttribs where
  ShaderStages : Nat
  SamplerResourceFlagCombined : Bool
  LoadUniformBufferReflection : Bool := false
  SourceLang : Nat := 0
deriving DecidableEq

/-- Modelled from the spec: the native driver as seen by `GLProgram`
(the "Native Program Handle" external leaf of section 2).  `accepts`
is the driver's verdict on a stage set under a separable flag;
`linkLog` is the diagnostic text it reports for that link attempt;
`completeAt` is the poll step at which a pending link is first observed
complete by a non-blocking query; `reflect` enumerates the active
resource interface of a linked program. -/
structure GLDriver where
  accepts    : List ShaderGLImpl → Bool → Bool
  linkLog    : List ShaderGLImpl → Bool → String
  completeAt : Nat
  reflect    : List ShaderGLImpl → LoadResourcesAttribs → ShaderResourcesGL

/-- The `GLProgram` state (GLProgram.hpp lines 83-90): native handle
`m_GLProg` (modelled as an id plus a validity flag), attached shaders
`m_AttachedShaders`, the separable-mode flag fixed at construction,
`m_InfoLog`, `m_LinkStatus` and the cached table `m_pResources`. -/
structure GLProgram where
  glHandle        : Nat
  handleValid     : Bool
  attachedShaders : List ShaderGLImpl
  isSeparable     : Bool
  infoLog         : String
  linkStatus      : LinkStatus
  resources       : Option ShaderResourcesGL
deriving DecidableEq

/-- Modelled from the spec: the `GLProgram` constructor (GLProgram.hpp
lines 44-46).  "Construction immediately issues the native link request;
it does not block" (section 4.1), so the state it establishes is
`InProgress` — the link has been requested but not yet confirmed. -/
def GLProgram.construct (ppShaders : List ShaderGLImpl)
    (IsSeparableProgram : Bool) (handle : Nat) : GLProgram :=
  { glHandle := handle
    handleValid := true
    attachedShaders := ppShaders
    isSeparable := IsSeparableProgram
    infoLog := ""
    linkStatus := .InProgress
    resources := none }

/-- Modelled from the spec: `GLProgram::GetLinkStatus(WaitForCompletion)`
(section 4.1).  A terminal state is returned unchanged (a no-op).  While
`InProgress`, a blocking call waits for the driver verdict and
transitions to `Succeeded` or `Failed`, capturing the diagnostic log in
either case; a non-blocking call does the same once the poll time `now`
has reached the driver's completion step, and otherwise reports
`InProgress` without stalling.  `Undefined` (no link requested) is
reported as the latest known state. -/
def GLProgram.GetLinkStatus (p : GLProgram) (drv : GLDriver) (now : Nat)
    (WaitForCompletion : Bool) : LinkStatus × GLProgram :=
  match p.linkStatus with
  | .Succeeded => (.Succeeded, p)
  | .Failed => (.Failed, p)
  | .Undefined => (.Undefined, p)
  | .InProgress =>
      if WaitForCompletion || decide (drv.completeAt ≤ now) then
        let st := if drv.accepts p.attachedShaders p.isSeparable then
          LinkStatus.Succeeded else LinkStatus.Failed
        (st, { p with
                 linkStatus := st
                 infoLog := drv.linkLog p.attachedShaders p.isSeparable })
      else
        (.InProgress, p)

/-- The error taxonomy of spec section 7 that `GLProgram` itself
surfaces (link failure is carried by `LinkStatus.Failed` instead). -/
inductive GLProgramError where
  | ReflectionFailure
  | BindingMismatch
deriving DecidableEq

deriving instance DecidableEq for Except

/-- Result of `GLProgram::LoadResources`: the returned table or error,
the program state after the call, and how many reflection queries were
issued to the driver by this call. -/
structure LoadResourcesResult where
  result        : Except GLProgramError ShaderResourcesGL
  prog          : GLProgram
  driverQueries : Nat
deriving DecidableEq

/-- Modelled from the spec: `GLProgram::LoadResources` (GLProgram.hpp
line 70, spec section 4.2).  If the native handle is invalid or link did
not succeed, it fails with a reflection error and does not mutate the
cache.  Otherwise a populated cache is returned as-is without
re-querying the driver; an empty cache is filled from one driver
reflection query. -/
def GLProgram.LoadResources (p : GLProgram) (drv : GLDriver)
    (Attribs : LoadResourcesAttribs) : LoadResourcesResult :=
  if p.handleValid && decide (p.linkStatus = .Succeeded) then
    match p.resources with
    | some tbl => ⟨.ok tbl, p, 0⟩
    | none =>
        let tbl := drv.reflect p.attachedShaders Attribs
        ⟨.ok tbl, { p with resources := some tbl }, 1⟩
  else
    ⟨.error .ReflectionFailure, p, 0⟩

/-- `GLProgram::GetResources` (GLProgram.hpp lines 78-81): accessor for
the cached table. -/
def GLProgram.GetResources (p : GLProgram) : Option ShaderResourcesGL :=
  p.resources

/-- `GLProgram::GetInfoLog` (GLProgram.hpp line 51). -/
def GLProgram.GetInfoLog (p : GLProgram) : String :=
  p.infoLog

/-- One entry of the logical resource signature
(`PipelineResourceSignatureGLImpl`, as visible through spec sections 3
and 4.3): a name, whether the entry is marked optional, and whether its
texture-sampler policy is combined (one native slot) or separate (two
native slots). -/
structure PipelineResourceDesc where
  name            : String
  combinedSampler : Bool
  optional        : Bool
deriving DecidableEq

/-- The logical resource signature: an ordered list of entries. -/
abbrev PipelineResourceSignatureGLImpl := List PipelineResourceDesc

/-- `PipelineResourceSignatureGLImpl::TBindings`, as described by spec
section 3 ("BaseBindings"): the resolved native slot offsets per
logical resource name. -/
abbrev TBindings := List (String × List Nat)

/-- Name-and-kind lookup in a reflected table (the matching rule of
spec section 4.3 is by name; the kind distinguishes the combined entry
from the separate texture and sampler entries). -/
def findResource (tbl : ShaderResourcesGL) (nm : String)
    (k : GLResourceKind) : Option GLReflectedResource :=
  tbl.find? fun r => r.name == nm && r.kind == k

/-- Whether a signature entry has a match in the reflected table:
a combined entry needs one combined reflected resource of its name; a
separate entry needs both a texture and a sampler reflected resource of
its name (spec section 4.3, combined-binding policy). -/
def sigEntryMatched (e : PipelineResourceDesc) (tbl : ShaderResourcesGL) : Bool :=
  if e.combinedSampler then
    (findResource tbl e.name .CombinedSampler).isSome
  else
    (findResource tbl e.name .SeparateTexture).isSome &&
    (findResource tbl e.name .SeparateSampler).isSome

/-- Modelled from the spec: the binding resolution underlying
`GLProgram::ApplyBindings` (section 4.3).  Signature entries are
processed in order; each is matched by name (and sampler policy kind)
against the reflected table.  A combined match contributes one native
slot, a separate match two; an unmatched optional entry is skipped
silently; an unmatched required entry is a `BindingMismatch`. -/
def resolveBindings (sig : PipelineResourceSignatureGLImpl)
    (tbl : ShaderResourcesGL) : Except GLProgramError TBindings :=
  match sig with
  | [] => .ok []
  | e :: rest =>
      if e.combinedSampler then
        match findResource tbl e.name .CombinedSampler with
        | some r =>
            match resolveBindings rest tbl with
            | .ok bs => .ok ((e.name, [r.slot]) :: bs)
            | .error er => .error er
        | none =>
            if e.optional then resolveBindings rest tbl
            else .error .BindingMismatch
      else
        match findResource tbl e.name .SeparateTexture,
              findResource tbl e.name .SeparateSampler with
        | some t, some s =>
            match resolveBindings rest tbl with
            | .ok bs => .ok ((e.name, [t.slot, s.slot]) :: bs)
            | .error er => .error er
        | _, _ =>
            if e.optional then resolveBindings rest tbl
            else .error .BindingMismatch

/-- Outcome of `GLProgram::ApplyBindings`: an optional error and the
`baseBindings` storage after the call. -/
structure ApplyBindingsResult where
  error        : Option GLProgramError
  baseBindings : TBindings
deriving DecidableEq

/-- Modelled from the spec: `GLProgram::ApplyBindings` (GLProgram.hpp
lines 72-75, spec section 4.3).  On success the resolved logical-slot to
native-slot map is written into `baseBindings`; on failure the error is
surfaced and `baseBindings` is left as it was (no partial writes). -/
def GLProgram.ApplyBindings (pSignature : PipelineResourceSignatureGLImpl)
    (ProgResources : ShaderResourcesGL)
    (BaseBindings : TBindings) : ApplyBindingsResult :=
  match resolveBindings pSignature ProgResources with
  | .ok bs => ⟨none, bs⟩
  | .error er => ⟨some er, BaseBindings⟩

/-- Modelled from the spec: a whole setup pipeline for one program
(control flow of section 2): construct from the stage set, block on the
link, reflect the resources, and resolve the bindings for a signature.
Used to state that the resulting binding map is a function of the stage
set, signature and policy only — not of the program instance (its
native handle id). -/
def programBindings (drv : GLDriver) (now : Nat)
    (Attribs : LoadResourcesAttribs) (sig : PipelineResourceSignatureGLImpl)
    (base : TBindings) (stages : List ShaderGLImpl) (sep : Bool)
    (handle : Nat) : ApplyBindingsResult :=
  let p0 := GLProgram.construct stages sep handle
  let p1 := (p0.GetLinkStatus drv now true).2
  match (p1.LoadResources drv Attribs).result with
  | .ok tbl => GLProgram.ApplyBindings sig tbl base
  | .error er => ⟨some er, base⟩

/-- The operations a caller can perform on an existing `GLProgram`
(used to state the state-machine and immutability invariants).
`ApplyBindings` reads the program's reflected table but mutates no
program field, so its action on the program state is the identity. -/
inductive GLProgramOp where
  | getLinkStatus (now : Nat) (wait : Bool)
  | loadResources (Attribs : LoadResourcesAttribs)
  | applyBindings (sig : PipelineResourceSignatureGLImpl) (base : TBindings)

/-- Action of an operation on the program state. -/
def GLProgramOp.run (op : GLProgramOp) (drv : GLDriver) (p : GLProgram) : GLProgram :=
  match op with
  | .getLinkStatus now wait => (p.GetLinkStatus drv now wait).2
  | .loadResources Attribs => (p.LoadResources drv Attribs).prog
  | .applyBindings _ _ => p

/-- The transitions the spec admits for `LinkStatus` (section 3):
staying in place, `Undefined → InProgress`, and
`InProgress → Succeeded / Failed`. -/
def LinkStatus.stepAllowed (a b : LinkStatus) : Bool :=
  a == b ||
  (a == .Undefined && b == .InProgress) ||
  (a == .InProgress && (b == .Succeeded || b == .Failed))

/-- A concrete driver used to exercise the model: it accepts any
non-empty stage set, reports an explanatory log for an empty one, and
reflects one combined-sampler resource. -/
def testDriver : GLDriver where
  accepts := fun stages _ => !stages.isEmpty
  linkLog := fun stages _ =>
    if stages.isEmpty then "No shaders attached to the program" else ""
  completeAt := 0
  reflect := fun _ _ => [⟨"albedo", .CombinedSampler, 0, 1, 1⟩]

/-! ## Theorems -/

/-- Helper: the status returned by `GetLinkStatus` is the status stored in
the resulting program state. -/
theorem GetLinkStatus_fst (p : GLProgram) (drv : GLDriver) (now : Nat) (w : Bool) :
    (p.GetLinkStatus drv now w).1 = (p.GetLinkStatus drv now w).2.linkStatus := by
  obtain ⟨gh, hv, sh, sep, il, ls, rs⟩ := p
  cases ls <;> simp [GLProgram.GetLinkStatus]
  split
  · split <;> simp
  · simp

/-- Helper: `GetLinkStatus` changes no field other than `linkStatus` and
`infoLog`; in particular the cached resource table survives. -/
theorem GetLinkStatus_resources (p : GLProgram) (drv : GLDriver) (now : Nat) (w : Bool) :
    (p.GetLinkStatus drv now w).2.resources = p.resources := by
  obtain ⟨gh, hv, sh, sep, il, ls, rs⟩ := p
  cases ls <;> simp [GLProgram.GetLinkStatus]
  split <;> simp

/-- Helper: in a terminal state, `GetLinkStatus` is a no-op returning the
cached state. -/
theorem GetLinkStatus_terminal (p : GLProgram) (drv : GLDriver) (now : Nat) (w : Bool)
    (h : p.linkStatus = .Succeeded ∨ p.linkStatus = .Failed) :
    p.GetLinkStatus drv now w = (p.linkStatus, p) := by
  rcases h with h | h <;> simp [GLProgram.GetLinkStatus, h]

/-- Helper: `LoadResources` never touches the link status, handle,
shaders or log of the program. -/
theorem LoadResources_fields (p : GLProgram) (drv : GLDriver) (A : LoadResourcesAttribs) :
    (p.LoadResources drv A).prog.linkStatus = p.linkStatus ∧
    (p.LoadResources drv A).prog.handleValid = p.handleValid ∧
    (p.LoadResources drv A).prog.attachedShaders = p.attachedShaders ∧
    (p.LoadResources drv A).prog.infoLog = p.infoLog := by
  unfold GLProgram.LoadResources
  split
  · split <;> simp
  · simp

/-- Claim C1: for a program constructed from a stage set, a blocking
`GetLinkStatus` call returns `Succeeded` or `Failed` (never `Undefined`
or `InProgress`), and a blocking call made in a terminal state leaves
the state unchanged and returns the cached terminal status. -/
theorem GetLinkStatus_blocking_terminal :
    (∀ (drv : GLDriver) (stages : List ShaderGLImpl) (sep : Bool) (handle now : Nat),
      ((GLProgram.construct stages sep handle).GetLinkStatus drv now true).1 = .Succeeded ∨
      ((GLProgram.construct stages sep handle).GetLinkStatus drv now true).1 = .Failed) ∧
    (∀ (drv : GLDriver) (p : GLProgram) (now : Nat),
      p.linkStatus = .Succeeded ∨ p.linkStatus = .Failed →
      p.GetLinkStatus drv now true = (p.linkStatus, p)) := by
  constructor
  · intro drv stages sep handle now
    by_cases h : drv.accepts stages sep <;>
      simp [GLProgram.construct, GLProgram.GetLinkStatus, h]
  · intro drv p now h
    exact GetLinkStatus_terminal p drv now true h

/-- Witness for C1: a program whose link already succeeded is returned
unchanged by a blocking status query. -/
theorem GetLinkStatus_blocking_terminal_witness :
    (GLProgram.GetLinkStatus ⟨1, true, [⟨1, 2⟩], false, "", .Succeeded, none⟩
        testDriver 0 true) =
      (.Succeeded, ⟨1, true, [⟨1, 2⟩], false, "", .Succeeded, none⟩) :=
  GetLinkStatus_blocking_terminal.2 testDriver
    ⟨1, true, [⟨1, 2⟩], false, "", .Succeeded, none⟩ 0 (Or.inl rfl)

/-- Claim C2: the link-status machine admits only the transitions
`Undefined → InProgress → Succeeded / Failed`; terminal states are never
left by any operation; construction establishes `InProgress` (never
`Undefined`), and after construction no status query observes
`Undefined`. -/
theorem linkStatus_state_machine :
    (∀ (op : GLProgramOp) (drv : GLDriver) (p : GLProgram),
      LinkStatus.stepAllowed p.linkStatus (op.run drv p).linkStatus = true) ∧
    (∀ (op : GLProgramOp) (drv : GLDriver) (p : GLProgram),
      p.linkStatus = .Succeeded ∨ p.linkStatus = .Failed →
      (op.run drv p).linkStatus = p.linkStatus) ∧
    (∀ (stages : List ShaderGLImpl) (sep : Bool) (handle : Nat),
      (GLProgram.construct stages sep handle).linkStatus = .InProgress) ∧
    (∀ (op : GLProgramOp) (drv : GLDriver) (p : GLProgram),
      p.linkStatus ≠ .Undefined → (op.run drv p).linkStatus ≠ .Undefined) ∧
    (∀ (drv : GLDriver) (now : Nat) (w : Bool) (p : GLProgram),
      p.linkStatus ≠ .Undefined → (p.GetLinkStatus drv now w).1 ≠ .Undefined) := by
  have hstep : ∀ (op : GLProgramOp) (drv : GLDriver) (p : GLProgram),
      LinkStatus.stepAllowed p.linkStatus (op.run drv p).linkStatus = true := by
    intro op drv p
    cases op with
    | getLinkStatus now w =>
        obtain ⟨gh, hv, sh, sep, il, ls, rs⟩ := p
        cases ls <;> simp [GLProgramOp.run, GLProgram.GetLinkStatus, LinkStatus.stepAllowed]
        split
        · split <;> simp
        · simp
    | loadResources A =>
        have hl := (LoadResources_fields p drv A).1
        simp only [GLProgramOp.run, hl]
        cases h : p.linkStatus <;> simp [LinkStatus.stepAllowed]
    | applyBindings sig base =>
        simp only [GLProgramOp.run]
        cases h : p.linkStatus <;> simp [LinkStatus.stepAllowed, h]
  refine ⟨hstep, ?_, ?_, ?_, ?_⟩
  · intro op drv p h
    have := hstep op drv p
    rcases h with h | h <;> rw [h] at this ⊢ <;>
      cases hb : (op.run drv p).linkStatus <;>
      simp [LinkStatus.stepAllowed, hb] at this <;> simp [this]
  · intro stages sep handle
    rfl
  · intro op drv p h
    have := hstep op drv p
    intro hc
    rw [hc] at this
    cases hb : p.linkStatus <;> rw [hb] at this <;>
      simp [LinkStatus.stepAllowed] at this <;> simp_all
  · intro drv now w p h
    rw [GetLinkStatus_fst]
    have := hstep (.getLinkStatus now w) drv p
    intro hc
    simp only [GLProgramOp.run] at this
    rw [hc] at this
    cases hb : p.linkStatus <;> rw [hb] at this <;>
      simp [LinkStatus.stepAllowed] at this <;> simp_all

/-- Witness for C2: the terminal and never-`Undefined` conjuncts applied
to a concrete succeeded program and a concrete in-progress program. -/
theorem linkStatus_state_machine_witness :
    ((GLProgramOp.loadResources ⟨1, true, false, 0⟩).run testDriver
        ⟨1, true, [⟨1, 2⟩], false, "", .Succeeded, none⟩).linkStatus = .Succeeded ∧
    ((GLProgramOp.getLinkStatus 0 true).run testDriver
        ⟨1, true, [⟨1, 2⟩], false, "", .InProgress, none⟩).linkStatus ≠ .Undefined ∧
    (GLProgram.GetLinkStatus ⟨1, true, [⟨1, 2⟩], false, "", .InProgress, none⟩
        testDriver 0 false).1 ≠ .Undefined :=
  ⟨linkStatus_state_machine.2.1 _ testDriver _ (Or.inl rfl),
   linkStatus_state_machine.2.2.2.1 _ testDriver _ (by simp),
   linkStatus_state_machine.2.2.2.2 testDriver 0 false _ (by simp)⟩

/-- Claim C3: binding resolution is deterministic — the setup pipeline
(construct, blocking link, reflect, resolve) produces the same binding
map for two distinct program instances (different native handle ids)
built from identical stage sets under identical signature and policy
inputs. -/
theorem programBindings_deterministic (drv : GLDriver) (now : Nat)
    (A : LoadResourcesAttribs) (sig : PipelineResourceSignatureGLImpl)
    (base : TBindings) (stages : List ShaderGLImpl) (sep : Bool)
    (handle1 handle2 : Nat) :
    programBindings drv now A sig base stages sep handle1 =
    programBindings drv now A sig base stages sep handle2 := by
  by_cases h : drv.accepts stages sep <;>
    simp [programBindings, GLProgram.construct, GLProgram.GetLinkStatus,
      GLProgram.LoadResources, h]

/-- Claim C5: `LoadResources` is idempotent — after a call that returned
a table, calling again with the same arguments returns the same cached
table, leaves the program unchanged, and issues no driver query. -/
theorem LoadResources_idempotent (drv : GLDriver) (A : LoadResourcesAttribs)
    (p p1 : GLProgram) (tbl : ShaderResourcesGL) (q : Nat)
    (h : p.LoadResources drv A = ⟨.ok tbl, p1, q⟩) :
    p1.LoadResources drv A = ⟨.ok tbl, p1, 0⟩ := by
  obtain ⟨gh, hv, sh, sep, il, ls, rs⟩ := p
  cases hv <;> cases ls <;> cases rs <;>
    simp_all [GLProgram.LoadResources] <;>
    simp [← h.2.1, GLProgram.LoadResources, ← h.1, ← h.2.2]

/-- Witness for C5: loading twice on a concrete successfully linked
program is a cache hit. -/
theorem LoadResources_idempotent_witness :
    GLProgram.LoadResources
        ⟨7, true, [⟨1, 2⟩], false, "", .Succeeded,
          some [⟨"albedo", .CombinedSampler, 0, 1, 1⟩]⟩
        testDriver ⟨1, true, false, 0⟩ =
      ⟨.ok [⟨"albedo", .CombinedSampler, 0, 1, 1⟩],
        ⟨7, true, [⟨1, 2⟩], false, "", .Succeeded,
          some [⟨"albedo", .CombinedSampler, 0, 1, 1⟩]⟩, 0⟩ :=
  LoadResources_idempotent testDriver ⟨1, true, false, 0⟩
    ⟨7, true, [⟨1, 2⟩], false, "", .Succeeded, none⟩ _ _ _ rfl

/-- Claim C6: with an invalid native handle or a non-`Succeeded` link
status, `LoadResources` fails with a reflection error and leaves the
program — in particular its cached table — unchanged, issuing no driver
query. -/
theorem LoadResources_precondition_failure (drv : GLDriver)
    (A : LoadResourcesAttribs) (p : GLProgram)
    (h : p.handleValid = false ∨ p.linkStatus ≠ .Succeeded) :
    p.LoadResources drv A = ⟨.error .ReflectionFailure, p, 0⟩ := by
  unfold GLProgram.LoadResources
  rcases h with h | h
  · simp [h]
  · have hd : decide (p.linkStatus = .Succeeded) = false := decide_eq_false h
    simp [hd]

/-- Witness for C6: loading on a concrete failed-link program errors and
preserves the state. -/
theorem LoadResources_precondition_failure_witness :
    GLProgram.LoadResources ⟨7, true, [], false, "log", .Failed, none⟩
        testDriver ⟨1, true, false, 0⟩ =
      ⟨.error .ReflectionFailure, ⟨7, true, [], false, "log", .Failed, none⟩, 0⟩ :=
  LoadResources_precondition_failure testDriver ⟨1, true, false, 0⟩
    ⟨7, true, [], false, "log", .Failed, none⟩ (Or.inr (by simp))

/-- Claim C7: constructing a program with zero attached stages, or with
a stage combination the driver rejects for the selected mode, leads a
blocking `GetLinkStatus` to report `Failed` with a non-empty info log
(the model is a total function, so no crash is possible). -/
theorem link_failure_explanatory_log (drv : GLDriver)
    (stages : List ShaderGLImpl) (sep : Bool) (handle now : Nat)
    (hempty : drv.accepts [] sep = false)
    (hlog : drv.linkLog stages sep ≠ "")
    (hbad : stages = [] ∨ drv.accepts stages sep = false) :
    ((GLProgram.construct stages sep handle).GetLinkStatus drv now true).1 = .Failed ∧
    ((GLProgram.construct stages sep handle).GetLinkStatus drv now true).2.GetInfoLog ≠ "" := by
  have hacc : drv.accepts stages sep = false := by
    rcases hbad with rfl | h
    · exact hempty
    · exact h
  simp [GLProgram.construct, GLProgram.GetLinkStatus, GLProgram.GetInfoLog,
    hacc, hlog]

/-- Witness for C7: the concrete driver rejects an empty stage set and
the failure carries its explanatory log. -/
theorem link_failure_explanatory_log_witness :
    ((GLProgram.construct [] false 0).GetLinkStatus testDriver 0 true).1 = .Failed ∧
    ((GLProgram.construct [] false 0).GetLinkStatus testDriver 0 true).2.GetInfoLog ≠ "" :=
  link_failure_explanatory_log testDriver [] false 0 0 rfl
    (by simp [testDriver]) (Or.inl rfl)

/-- Claim C8: once the resource-reflection table is cached, no operation
on the program changes it — every `GLProgramOp` leaves the populated
cache exactly as it was. -/
theorem resources_immutable (op : GLProgramOp) (drv : GLDriver)
    (p : GLProgram) (tbl : ShaderResourcesGL) (h : p.resources = some tbl) :
    (op.run drv p).resources = some tbl := by
  cases op with
  | getLinkStatus now w => rw [GLProgramOp.run, GetLinkStatus_resources, h]
  | loadResources A =>
      obtain ⟨gh, hv, sh, sep, il, ls, rs⟩ := p
      cases hv <;> cases ls <;> simp_all [GLProgramOp.run, GLProgram.LoadResources]
  | applyBindings sig base => exact h

/-- Witness for C8: a status query on a concrete program with a
populated cache keeps the cache. -/
theorem resources_immutable_witness :
    ((GLProgramOp.getLinkStatus 3 true).run testDriver
        ⟨7, true, [⟨1, 2⟩], false, "", .Succeeded,
          some [⟨"albedo", .CombinedSampler, 0, 1, 1⟩]⟩).resources =
      some [⟨"albedo", .CombinedSampler, 0, 1, 1⟩] :=
  resources_immutable (.getLinkStatus 3 true) testDriver _ _ rfl

/-- Helper: when some required signature entry is unmatched in the
reflected table, binding resolution reports `BindingMismatch` (the only
error the resolver ever raises, wherever in the list it occurs). -/
theorem resolveBindings_unmatched_required (sig : PipelineResourceSignatureGLImpl)
    (tbl : ShaderResourcesGL)
    (h : ∃ e ∈ sig, e.optional = false ∧ sigEntryMatched e tbl = false) :
    resolveBindings sig tbl = .error .BindingMismatch := by
  induction sig with
  | nil => obtain ⟨e, he, _⟩ := h; simp at he
  | cons e rest ih =>
      obtain ⟨e2, he2, hopt, hunm⟩ := h
      rcases List.mem_cons.mp he2 with rfl | hmem
      · unfold resolveBindings
        by_cases hc : e2.combinedSampler
        · rw [sigEntryMatched, if_pos hc] at hunm
          have hF : findResource tbl e2.name .CombinedSampler = none := by
            cases hF : findResource tbl e2.name .CombinedSampler <;> simp_all
          simp [hc, hF, hopt]
        · rw [sigEntryMatched, if_neg hc] at hunm
          cases hT : findResource tbl e2.name .SeparateTexture <;>
            cases hS : findResource tbl e2.name .SeparateSampler <;>
            simp_all [hc, hopt]
      · have hrec := ih ⟨e2, hmem, hopt, hunm⟩
        unfold resolveBindings
        by_cases hc : e.combinedSampler
        · cases hF : findResource tbl e.name .CombinedSampler <;>
            by_cases ho : e.optional <;> simp [hc, hF, ho, hrec]
        · cases hT : findResource tbl e.name .SeparateTexture <;>
            cases hS : findResource tbl e.name .SeparateSampler <;>
            by_cases ho : e.optional <;> simp [hc, hT, hS, ho, hrec]

/-- Helper: when every required signature entry is matched, binding
resolution succeeds (unmatched optional entries are skipped). -/
theorem resolveBindings_all_required_matched (sig : PipelineResourceSignatureGLImpl)
    (tbl : ShaderResourcesGL)
    (h : ∀ e ∈ sig, e.optional = false → sigEntryMatched e tbl = true) :
    ∃ bs, resolveBindings sig tbl = .ok bs := by
  induction sig with
  | nil => exact ⟨[], rfl⟩
  | cons e rest ih =>
      obtain ⟨bs, hbs⟩ := ih fun e2 he2 => h e2 (List.mem_cons_of_mem _ he2)
      have hhead := h e (List.mem_cons_self e rest)
      unfold resolveBindings
      by_cases hc : e.combinedSampler
      · cases hF : findResource tbl e.name .CombinedSampler with
        | some r => exact ⟨(e.name, [r.slot]) :: bs, by simp [hc, hF, hbs]⟩
        | none =>
            have ho : e.optional = true := by
              by_contra hno
              have := hhead (by simpa using hno)
              simp [sigEntryMatched, hc, hF] at this
            exact ⟨bs, by simp [hc, hF, ho, hbs]⟩
      · cases hT : findResource tbl e.name .SeparateTexture with
        | some t =>
            cases hS : findResource tbl e.name .SeparateSampler with
            | some s => exact ⟨(e.name, [t.slot, s.slot]) :: bs, by simp [hc, hT, hS, hbs]⟩
            | none =>
                have ho : e.optional = true := by
                  by_contra hno
                  have := hhead (by simpa using hno)
                  simp [sigEntryMatched, hc, hT, hS] at this
                exact ⟨bs, by simp [hc, hT, hS, ho, hbs]⟩
        | none =>
            have ho : e.optional = true := by
              by_contra hno
              have := hhead (by simpa using hno)
              simp [sigEntryMatched, hc, hT] at this
            exact ⟨bs, by cases hS : findResource tbl e.name .SeparateSampler <;>
              simp [hc, hT, hS, ho, hbs]⟩

/-- Claim C4: if some required signature entry has no match in the
reflected table, `ApplyBindings` fails with `BindingMismatch` and
returns `baseBindings` exactly as given (no partial writes); if every
required entry is matched, it succeeds, so unmatched optional entries
alone never cause an error. -/
theorem ApplyBindings_unmatched (sig : PipelineResourceSignatureGLImpl)
    (tbl : ShaderResourcesGL) (base : TBindings) :
    ((∃ e ∈ sig, e.optional = false ∧ sigEntryMatched e tbl = false) →
      GLProgram.ApplyBindings sig tbl base = ⟨some .BindingMismatch, base⟩) ∧
    ((∀ e ∈ sig, e.optional = false → sigEntryMatched e tbl = true) →
      ∃ bs, GLProgram.ApplyBindings sig tbl base = ⟨none, bs⟩) := by
  constructor
  · intro h
    simp [GLProgram.ApplyBindings, resolveBindings_unmatched_required sig tbl h]
  · intro h
    obtain ⟨bs, hbs⟩ := resolveBindings_all_required_matched sig tbl h
    exact ⟨bs, by simp [GLProgram.ApplyBindings, hbs]⟩

/-- Witness for C4: a required entry absent from the table errors and
leaves the given bindings untouched; a signature whose only unmatched
entry is optional succeeds. -/
theorem ApplyBindings_unmatched_witness :
    GLProgram.ApplyBindings [⟨"missing", true, false⟩]
        [⟨"albedo", .CombinedSampler, 0, 1, 1⟩] [("t", [5])] =
      ⟨some .BindingMismatch, [("t", [5])]⟩ ∧
    ∃ bs, GLProgram.ApplyBindings [⟨"albedo", true, false⟩, ⟨"extra", true, true⟩]
        [⟨"albedo", .CombinedSampler, 0, 1, 1⟩] [] = ⟨none, bs⟩ :=
  ⟨(ApplyBindings_unmatched _ _ _).1 (by decide),
   (ApplyBindings_unmatched _ _ _).2 (by decide)⟩

/-- Helper: every index value emitted for the cube is strictly below the
total vertex count `6 * (n + 1)^2`.  The largest emitted value is
`v11 = FaceBaseVertex + y * (n + 1) + x + n + 2` with `FaceIndex <= 5`,
`y, x <= n - 1`, which equals at most `6 * (n + 1)^2 - 1`. -/
theorem cubeIndexData_lt_vertexCount (n : Nat) :
    ∀ i ∈ cubeIndexData n, i < 6 * ((n + 1) * (n + 1)) := by
  intro i hi
  simp only [cubeIndexData, cubeFaceIndices, List.mem_flatMap,
    List.mem_range] at hi
  obtain ⟨fI, hf, y, hy, x, hx, hmem⟩ := hi
  have e1 : fI * ((n + 1) * (n + 1)) + (n + 1) * (n + 1) ≤
      6 * ((n + 1) * (n + 1)) := by
    have h6 : fI + 1 ≤ 6 := hf
    calc fI * ((n + 1) * (n + 1)) + (n + 1) * (n + 1)
        = (fI + 1) * ((n + 1) * (n + 1)) := by ring
      _ ≤ 6 * ((n + 1) * (n + 1)) := Nat.mul_le_mul h6 le_rfl
  have e2 : y * (n + 1) + (n + 1) ≤ n * (n + 1) := by
    have hyn : y + 1 ≤ n := hy
    calc y * (n + 1) + (n + 1) = (y + 1) * (n + 1) := by ring
      _ ≤ n * (n + 1) := Nat.mul_le_mul hyn le_rfl
  have e4 : (n + 1) * (n + 1) = n * (n + 1) + (n + 1) := by ring
  simp only [cubeCellIndices, List.mem_cons, List.not_mem_nil,
    or_false] at hmem
  rcases hmem with rfl | rfl | rfl | rfl | rfl | rfl <;> linarith

/-- Claim C9: for `Size > 0` and `1 <= NumSubdivisions <= 2048`,
`CreateCubeGeometry` reports `6 * (n + 1)^2` vertices and
`6 * n * n * 2 * 3` indices, writes exactly the cube index list into the
index blob, and every written index is strictly below the reported
vertex count. -/
theorem CreateCubeGeometry_counts (Size : ℚ) (n : Nat)
    (f : GeometryVertexFlags) (out : CubeGeometryOut)
    (hS : 0 < Size) (h1 : 1 ≤ n) (h2 : n ≤ 2048) :
    (CreateCubeGeometry Size n f ⟨true, true, true, true⟩ out).numVertices =
      6 * ((n + 1) * (n + 1)) ∧
    (CreateCubeGeometry Size n f ⟨true, true, true, true⟩ out).numIndices =
      6 * (n * n * 2 * 3) ∧
    (CreateCubeGeometry Size n f ⟨true, true, true, true⟩ out).indexBlob =
      some (cubeIndexData n) ∧
    ∀ i ∈ cubeIndexData n,
      i < (CreateCubeGeometry Size n f ⟨true, true, true, true⟩ out).numVertices := by
  have hns : ¬Size ≤ 0 := not_le.mpr hS
  have hn0 : ¬n = 0 := by omega
  have hn2048 : ¬n > 2048 := by omega
  refine ⟨?_, ?_, ?_, ?_⟩ <;>
    simp only [CreateCubeGeometry, if_neg hns, if_neg hn0, if_neg hn2048]
  · rw [if_pos trivial]; ring
  · rw [if_pos trivial]; ring
  · rfl
  · have := cubeIndexData_lt_vertexCount n
    intro i hi
    have hlt := this i hi
    simpa [Nat.mul_comm] using hlt

/-- Witness for C9: the subdivided unit cube with two cells per side. -/
theorem CreateCubeGeometry_counts_witness :
    (CreateCubeGeometry 1 2 ⟨true, true, true⟩ ⟨true, true, true, true⟩
        ⟨none, none, 0, 0⟩).numVertices = 54 ∧
    (CreateCubeGeometry 1 2 ⟨true, true, true⟩ ⟨true, true, true, true⟩
        ⟨none, none, 0, 0⟩).numIndices = 144 ∧
    (CreateCubeGeometry 1 2 ⟨true, true, true⟩ ⟨true, true, true, true⟩
        ⟨none, none, 0, 0⟩).indexBlob = some (cubeIndexData 2) ∧
    ∀ i ∈ cubeIndexData 2,
      i < (CreateCubeGeometry 1 2 ⟨true, true, true⟩ ⟨true, true, true, true⟩
        ⟨none, none, 0, 0⟩).numVertices := by
  have h := CreateCubeGeometry_counts 1 2 ⟨true, true, true⟩ ⟨none, none, 0, 0⟩
    (by decide) (by decide) (by decide)
  exact ⟨h.1, h.2.1, h.2.2.1, h.2.2.2⟩

/-- Claim C10: with `Size <= 0`, `NumSubdivisions = 0` or
`NumSubdivisions > 2048`, `CreateCubeGeometry` returns early and every
output-pointer target keeps its previous value. -/
theorem CreateCubeGeometry_guard_no_write (Size : ℚ) (n : Nat)
    (f : GeometryVertexFlags) (ptrs : CubeOutPtrs) (out : CubeGeometryOut)
    (h : Size ≤ 0 ∨ n = 0 ∨ 2048 < n) :
    CreateCubeGeometry Size n f ptrs out = out := by
  unfold CreateCubeGeometry
  by_cases hs : Size ≤ 0
  · simp [hs]
  · rw [if_neg hs]
    by_cases h0 : n = 0
    · simp [h0]
    · rw [if_neg h0]
      have h3 : n > 2048 := by
        rcases h with h | h | h
        · exact absurd h hs
        · exact absurd h h0
        · exact h
      simp [h3]

/-- Witness for C10: a negative size, a zero subdivision count and an
oversized subdivision count each leave the outputs untouched. -/
theorem CreateCubeGeometry_guard_no_write_witness :
    CreateCubeGeometry (-1) 4 ⟨true, true, true⟩ ⟨true, true, true, true⟩
        ⟨some 3, some [2], 7, 9⟩ = ⟨some 3, some [2], 7, 9⟩ ∧
    CreateCubeGeometry 1 0 ⟨true, true, true⟩ ⟨true, true, true, true⟩
        ⟨some 3, some [2], 7, 9⟩ = ⟨some 3, some [2], 7, 9⟩ ∧
    CreateCubeGeometry 1 2049 ⟨true, true, true⟩ ⟨true, true, true, true⟩
        ⟨some 3, some [2], 7, 9⟩ = ⟨some 3, some [2], 7, 9⟩ :=
  ⟨CreateCubeGeometry_guard_no_write (-1) 4 _ _ _ (Or.inl (by decide)),
   CreateCubeGeometry_guard_no_write 1 0 _ _ _ (Or.inr (Or.inl rfl)),
   CreateCubeGeometry_guard_no_write 1 2049 _ _ _ (Or.inr (Or.inr (by decide)))⟩

end DiligentCore
